import Mathlib

/-!
Shallow embedding of the artifact/timecode conversion engine of the
`import_export_sql` repository, covering the code paths of
`app/services/artifact_generator.py`, `app/background/tasks.py` and
`app/services/export_service.py` that the verified properties refer to.

Modelling conventions:
* Python floats carrying seconds values are modelled as exact rationals (`ℚ`).
* Python `int(x)` truncates toward zero; `x // y` on floats is the floor of the
  quotient; `x % y` is `x - y * (x // y)`; Python 3 `round` rounds half to even.
* Python dict-shaped records are modelled per code path as structures carrying
  exactly the fields that code path reads; a missing key is `Option.none`.
  The dict key `"end"` is rendered as the field name `stop` (`end` is a Lean
  keyword).
* `str.strip`, `str.split` and string `<` are re-implemented over `List Char`
  with Python's semantics (code-point lexicographic comparison).
* File writes are dropped; each generator returns the data it would write.
-/

namespace ImportExportSql

/-- Python `int(x)` applied to a float: truncation toward zero. -/
def pyInt (q : ℚ) : ℤ := if q < 0 then -⌊-q⌋ else ⌊q⌋

/-- Python float floor division `a // b`: the floor of the quotient, as a float. -/
def pyFloorDiv (a b : ℚ) : ℚ := (⌊a / b⌋ : ℚ)

/-- Python float modulo `a % b`, i.e. `a - b * (a // b)`. -/
def pyMod (a b : ℚ) : ℚ := a - b * (⌊a / b⌋ : ℚ)

/-- Python 3 `round(x)` without digits: round half to even, returning an int. -/
def pyRound (q : ℚ) : ℤ :=
  if q - (⌊q⌋ : ℚ) < 1 / 2 then ⌊q⌋
  else if 1 / 2 < q - (⌊q⌋ : ℚ) then ⌊q⌋ + 1
  else if 2 ∣ ⌊q⌋ then ⌊q⌋ else ⌊q⌋ + 1

/-- Pad a digit string on the left with zeros up to width `w`. -/
def padZeros (w : Nat) (s : String) : String :=
  String.mk (List.replicate (w - s.length) '0') ++ s

/-- Python's zero-padded integer format `f"{n:0wd}"`: the minus sign, when
present, comes before the padding zeros. -/
def pyFmtZ (w : Nat) (n : ℤ) : String :=
  if n < 0 then "-" ++ padZeros (w - 1) (Nat.repr n.natAbs) else padZeros w (Nat.repr n.toNat)

/-- Python `str.strip()`: drop leading and trailing whitespace. -/
def pyStrip (s : String) : String :=
  String.mk (((s.data.dropWhile Char.isWhitespace).reverse.dropWhile Char.isWhitespace).reverse)

/-- Python string `<`: lexicographic comparison by code point. -/
def pyStrLtChars : List Char → List Char → Bool
  | [], [] => false
  | [], _ :: _ => true
  | _ :: _, [] => false
  | a :: as, b :: bs =>
    if a.toNat < b.toNat then true
    else if b.toNat < a.toNat then false
    else pyStrLtChars as bs

/-- Python string `<` on `String`. -/
def pyStrLt (s t : String) : Bool := pyStrLtChars s.data t.data

/-- Python `" ".join`-style joining of a list of strings with a separator. -/
def pyJoin (sep : String) : List String → String
  | [] => ""
  | [s] => s
  | s :: rest => s ++ sep ++ pyJoin sep rest

/-- Python `str.split(sep)` for a one-character separator. -/
def pySplit (sep : Char) : List Char → List (List Char)
  | [] => [[]]
  | c :: rest =>
    if c = sep then [] :: pySplit sep rest
    else
      match pySplit sep rest with
      | h :: t => (c :: h) :: t
      | [] => [[c]]

/-- Module-level frame-rate constant `FPS = 25` of `artifact_generator.py`. -/
def FPS : ℤ := 25

/-- `ArtifactGenerator._format_srt_time`: `HH:MM:SS,mmm` from seconds. -/
def formatSrtTime (seconds : ℚ) : String :=
  pyFmtZ 2 (pyInt (pyFloorDiv seconds 3600)) ++ ":" ++
  pyFmtZ 2 (pyInt (pyFloorDiv (pyMod seconds 3600) 60)) ++ ":" ++
  pyFmtZ 2 (pyInt (pyMod seconds 60)) ++ "," ++
  pyFmtZ 3 (pyInt (pyMod seconds 1 * 1000))

/-- `ArtifactGenerator._format_vtt_time`: `HH:MM:SS.mmm` from seconds. -/
def formatVttTime (seconds : ℚ) : String :=
  pyFmtZ 2 (pyInt (pyFloorDiv seconds 3600)) ++ ":" ++
  pyFmtZ 2 (pyInt (pyFloorDiv (pyMod seconds 3600) 60)) ++ ":" ++
  pyFmtZ 2 (pyInt (pyMod seconds 60)) ++ "." ++
  pyFmtZ 3 (pyInt (pyMod seconds 1 * 1000))

/-- Frame component of `ArtifactGenerator.seconds_to_timecode`:
`int((seconds - int(td.total_seconds())) * fps)`. -/
def timecodeFrames (seconds : ℚ) (fps : ℤ) : ℤ :=
  pyInt ((seconds - (pyInt seconds : ℚ)) * (fps : ℚ))

/-- `ArtifactGenerator.seconds_to_timecode(seconds, fps=FPS)`: SMPTE
`HH:MM:SS:FF`.  `int(timedelta(seconds=s).total_seconds())` is `int(s)`. -/
def secondsToTimecode (seconds : ℚ) (fps : ℤ := FPS) : String :=
  pyFmtZ 2 (pyInt seconds / 3600) ++ ":" ++
  pyFmtZ 2 (pyInt seconds % 3600 / 60) ++ ":" ++
  pyFmtZ 2 (pyInt seconds % 60) ++ ":" ++
  pyFmtZ 2 (timecodeFrames seconds fps)

/-- The local helper `seconds_to_frames` of
`ArtifactGenerator.generate_transcript_fcpxml`: `int(round(float(seconds) * fps))`
(`round` already yields an int, so the outer `int` is the identity). -/
def secondsToFrames (seconds : ℚ) (fps : ℤ) : ℤ := pyRound (seconds * (fps : ℚ))

/-- `ArtifactGenerator._fps_to_frame_duration`: `num, den = fps.split("/")`
followed by `f"{den}/{num}s"`; the tuple unpacking raises `ValueError` unless
the split yields exactly two parts. -/
def fpsToFrameDuration (fps : String) : Except String String :=
  match pySplit '/' fps.data with
  | [num, den] => .ok (String.mk den ++ "/" ++ String.mk num ++ "s")
  | _ => .error "ValueError: tuple unpacking expected exactly 2 values"

/-! ### WebVTT generation (`ArtifactGenerator.generate_transcript_vtt`) -/

/-- Transcript segment as read by the WebVTT builder: it accesses
`segment.get("eventValue", "")`, `segment.get("start", 0)` and
`segment.get("end", 0)`. -/
structure VttSegment where
  eventValue : Option String
  start : Option ℚ
  stop : Option ℚ
deriving DecidableEq

/-- One cue written to the `.vtt` file: number line, timestamp line, text. -/
structure VttCue where
  num : Nat
  startTs : String
  stopTs : String
  text : String
deriving DecidableEq

/-- Loop body of `generate_transcript_vtt`: `for idx, segment in
enumerate(segments, 1)`; a segment whose stripped text is falsy is skipped
with `continue`, a segment whose formatted timestamps satisfy `start >= end`
(string comparison) is skipped with `continue`, otherwise the cue is written
with the enumerate index `idx` as its number. -/
def vttCuesAux : Nat → List VttSegment → List VttCue
  | _, [] => []
  | idx, seg :: rest =>
    let text := pyStrip (seg.eventValue.getD "")
    if text = "" then vttCuesAux (idx + 1) rest
    else
      let s := formatVttTime (seg.start.getD 0)
      let e := formatVttTime (seg.stop.getD 0)
      if pyStrLt s e then
        { num := idx, startTs := s, stopTs := e, text := text } :: vttCuesAux (idx + 1) rest
      else vttCuesAux (idx + 1) rest

/-- `ArtifactGenerator.generate_transcript_vtt`, as the list of cues written
after the `WEBVTT` header. -/
def generateTranscriptVtt (segments : List VttSegment) : List VttCue :=
  vttCuesAux 1 segments

/-- Modelled from the spec (as amended): the cue emitted for the segment at
1-based input position `p.1`, or `none` when the segment is skipped. -/
def vttEmit (p : Nat × VttSegment) : Option VttCue :=
  let text := pyStrip (p.2.eventValue.getD "")
  if text = "" then none
  else
    let s := formatVttTime (p.2.start.getD 0)
    let e := formatVttTime (p.2.stop.getD 0)
    if pyStrLt s e then some { num := p.1, startTs := s, stopTs := e, text := text }
    else none

/-! ### EDL assembly (`ArtifactGenerator.generate_events_edl`) -/

/-- Event record as read by the EDL builder: `event["start"]`, `event["end"]`
are required numeric fields; `id`, `sdnaEventType`, `eventValue` are read with
`.get` for the comment lines. -/
structure EdlEvent where
  id : Option String
  sdnaEventType : Option String
  eventValue : Option String
  start : ℚ
  stop : ℚ
deriving DecidableEq

/-- One edit of the EDL: 1-based index, source in/out and record in/out
SMPTE timecodes. -/
structure EdlEdit where
  index : Nat
  sourceIn : String
  sourceOut : String
  recordIn : String
  recordOut : String
deriving DecidableEq

/-- Python `str.ljust(w)`. -/
def pyLjust (w : Nat) (s : String) : String :=
  s ++ String.mk (List.replicate (w - s.length) ' ')

/-- The fixed-width edit line `f"{i:03d}  {reel:<8} {track:<5} C        ..."`. -/
def edlEditLine (reel track : String) (e : EdlEdit) : String :=
  pyFmtZ 3 (e.index : ℤ) ++ "  " ++ pyLjust 8 reel ++ " " ++ pyLjust 5 track ++ " C        " ++
  e.sourceIn ++ " " ++ e.sourceOut ++ " " ++ e.recordIn ++ " " ++ e.recordOut

/-- Loop of `generate_events_edl`: `record_in` starts at `0.0` and advances by
`event["end"] - event["start"]` after each event; `i` counts from 1 in input
order; all four timecodes use `seconds_to_timecode` at the default 25 fps. -/
def edlEditsAux : Nat → ℚ → List EdlEvent → List EdlEdit
  | _, _, [] => []
  | i, recordIn, e :: rest =>
    { index := i
      sourceIn := secondsToTimecode e.start
      sourceOut := secondsToTimecode e.stop
      recordIn := secondsToTimecode recordIn
      recordOut := secondsToTimecode (recordIn + (e.stop - e.start)) } ::
    edlEditsAux (i + 1) (recordIn + (e.stop - e.start)) rest

/-- `ArtifactGenerator.generate_events_edl`, as the list of edits written
after the `TITLE:`/`FCM:` header. -/
def generateEventsEdl (segments : List EdlEvent) : List EdlEdit :=
  edlEditsAux 1 0 segments

/-- Sum of the `(end - start)` durations of a record list. -/
def sumDurations (events : List EdlEvent) : ℚ :=
  (events.map (fun e => e.stop - e.start)).sum

/-! ### Transcript JSON and single-segment merge
(`ArtifactGenerator.generate_transcript_json`) -/

/-- Dynamic Python value for the `start`/`end` fields, which the merge path
feeds to `min`/`max`: a number or (malformed) a string. -/
inductive PyVal where
  | num (q : ℚ)
  | str (s : String)
deriving DecidableEq

/-- Python `<` between dynamic values: numbers compare numerically, strings
lexicographically, a mixed comparison raises `TypeError`. -/
def pyValLt : PyVal → PyVal → Except String Bool
  | .num a, .num b => .ok (decide (a < b))
  | .str a, .str b => .ok (pyStrLt a b)
  | _, _ => .error "TypeError"

/-- Fold of Python `min(iterable)`: keep the current value unless the next
element compares strictly below it. -/
def pyMinFold : PyVal → List PyVal → Except String PyVal
  | acc, [] => .ok acc
  | acc, x :: xs => do
    let lt ← pyValLt x acc
    pyMinFold (if lt then x else acc) xs

/-- Python `min(iterable)`. -/
def pyMinList : List PyVal → Except String PyVal
  | [] => .error "ValueError: min() arg is an empty sequence"
  | x :: xs => pyMinFold x xs

/-- Fold of Python `max(iterable)`: replace the current value when the next
element compares strictly above it. -/
def pyMaxFold : PyVal → List PyVal → Except String PyVal
  | acc, [] => .ok acc
  | acc, x :: xs => do
    let gt ← pyValLt acc x
    pyMaxFold (if gt then x else acc) xs

/-- Python `max(iterable)`. -/
def pyMaxList : List PyVal → Except String PyVal
  | [] => .error "ValueError: max() arg is an empty sequence"
  | x :: xs => pyMaxFold x xs

/-- Transcript segment as read by `generate_transcript_json`. -/
structure TranscriptSegment where
  id : Option String
  sdnaEventType : Option String
  eventValue : Option String
  fullPath : Option String
  start : Option PyVal
  stop : Option PyVal
deriving DecidableEq

/-- `seg.get("start", 0)` of the merge path. -/
def startOrZero (g : TranscriptSegment) : PyVal := g.start.getD (.num 0)

/-- `seg.get("end", 0)` of the merge path. -/
def stopOrZero (g : TranscriptSegment) : PyVal := g.stop.getD (.num 0)

/-- `" ".join(str(seg.get("eventValue", "")).strip() for seg in segments if
seg.get("eventValue"))`: the generator guard is Python truthiness, so a
missing or empty value is excluded before joining. -/
def mergedTranscriptText (segments : List TranscriptSegment) : String :=
  pyJoin " " (segments.filterMap fun g =>
    match g.eventValue with
    | none => none
    | some v => if v = "" then none else some (pyStrip v))

/-- The try-block of the merge branch of `generate_transcript_json`: the
joined text is computed first, then `min` over the starts, then `max` over
the ends; either aggregate may raise on malformed values.  On success the
single synthetic segment `{"id": str(1), "sdnaEventType": "transcript", ...}`
is the new `cleaned_segments`. -/
def mergeAttempt (segments : List TranscriptSegment) : Except String (List TranscriptSegment) := do
  let mergedText := mergedTranscriptText segments
  let minStart ← pyMinList (segments.map startOrZero)
  let maxEnd ← pyMaxList (segments.map stopOrZero)
  pure [{ id := some "1", sdnaEventType := some "transcript",
          eventValue := some mergedText, fullPath := none,
          start := some minStart, stop := some maxEnd }]

/-- `ArtifactGenerator.generate_transcript_json` on its `segments` list.
When `is_single_segment` and the list is truthy (non-empty), the merge branch
runs inside `try`; if it raises, the handler only logs, `cleaned_segments`
is left unassigned, and building `output_data` afterwards raises
`UnboundLocalError`.  Otherwise each segment is copied with `fullPath`
popped. -/
def generateTranscriptJson (segments : List TranscriptSegment) (isSingleSegment : Bool) :
    Except String (List TranscriptSegment) :=
  if isSingleSegment ∧ segments ≠ [] then
    match mergeAttempt segments with
    | .ok cs => .ok cs
    | .error _ => .error "UnboundLocalError: cleaned_segments"
  else
    .ok (segments.map fun g => { g with fullPath := none })

/-- Modelled from the spec: "space-joined, whitespace-trimmed concatenation of
every non-empty segment value" — select the segments with a non-empty value,
trim each value, join with single spaces. -/
def mergedTextFromSpec (segments : List TranscriptSegment) : String :=
  pyJoin " " (((segments.filter fun g => g.eventValue.getD "" ≠ "").map
    fun g => pyStrip (g.eventValue.getD "")))

/-! ### CSV rendering (`generate_events_csv`, `generate_insights_csv`) -/

/-- A dict-shaped record for CSV purposes: association list of the record's
fields, with every value already rendered as its cell string (the `csv`
module writes `str(value)`, and `None` as the empty string — a `None` value
is modelled as an absent key, both yield the empty cell). -/
def pyDictGet (d : List (String × String)) (k : String) : Option String :=
  (d.find? fun p => p.1 = k).map (·.2)

/-- Fixed header row of `generate_events_csv`. -/
def eventsCsvHeaders : List String := ["id", "sdnaEventType", "eventValue", "start", "end"]

/-- Fixed header row of `generate_insights_csv`. -/
def insightsCsvHeaders : List String :=
  ["id", "sdnaEventType", "eventValue", "start", "end", "source"]

/-- An absent value becomes an empty cell. -/
def csvCell (v : Option String) : String := v.getD ""

/-- Row written for one event: the row dict is built with `.get` on exactly
the five header keys, so other fields of the record never reach the writer. -/
def eventsCsvRow (ev : List (String × String)) : List String :=
  [csvCell (pyDictGet ev "id"), csvCell (pyDictGet ev "sdnaEventType"),
   csvCell (pyDictGet ev "eventValue"), csvCell (pyDictGet ev "start"),
   csvCell (pyDictGet ev "end")]

/-- `ArtifactGenerator.generate_events_csv`: header row then one row per
record, in order. -/
def generateEventsCsv (segments : List (List (String × String))) : List (List String) :=
  eventsCsvHeaders :: segments.map eventsCsvRow

/-- Row written for one insight: the row dict is the record minus its
`metadata` key; `DictWriter(..., extrasaction="ignore")` drops keys outside
the headers and fills missing headers with the default `restval` `""`. -/
def insightsCsvRow (c : List (String × String)) : List String :=
  insightsCsvHeaders.map fun h => csvCell (pyDictGet (c.filter fun p => p.1 ≠ "metadata") h)

/-- `ArtifactGenerator.generate_insights_csv`: header row then one row per
record, in order. -/
def generateInsightsCsv (segments : List (List (String × String))) : List (List String) :=
  insightsCsvHeaders :: segments.map insightsCsvRow

/-! ### Per-format dispatchers (`app/background/tasks.py`) -/

/-- Outcome of one generator call inside the dispatcher's `try`: the returned
path, or the message of a raised exception. -/
def dispatchOutcome (kind : String) (fmt : String) :
    Except String String → Option String × String
  | .ok p => (some p, "Success")
  | .error e => (none, kind ++ " artifact generation failed : format=" ++ fmt ++ " , error=" ++ e)

/-- `_generate_transcript_artifact`: dispatch on the format identifier; the
generator behaviour is abstracted as `gen`.  An identifier outside
`{json, srt, vtt, fcpxml}` reaches the `else` branch, which logs and returns
`(None, message)` without raising. -/
def generateTranscriptArtifact (gen : String → Except String String) (fmt : String) :
    Option String × String :=
  if fmt = "json" then dispatchOutcome "Transcript" fmt (gen fmt)
  else if fmt = "srt" then dispatchOutcome "Transcript" fmt (gen fmt)
  else if fmt = "vtt" then dispatchOutcome "Transcript" fmt (gen fmt)
  else if fmt = "fcpxml" then dispatchOutcome "Transcript" fmt (gen fmt)
  else (none, "Unsupported transcript format : format=" ++ fmt)

/-- `_generate_events_artifact`: supported set `{json, csv, fcpxml, edl}`. -/
def generateEventsArtifact (gen : String → Except String String) (fmt : String) :
    Option String × String :=
  if fmt = "json" then dispatchOutcome "Events" fmt (gen fmt)
  else if fmt = "csv" then dispatchOutcome "Events" fmt (gen fmt)
  else if fmt = "fcpxml" then dispatchOutcome "Events" fmt (gen fmt)
  else if fmt = "edl" then dispatchOutcome "Events" fmt (gen fmt)
  else (none, "Unsupported events format : format=" ++ fmt)

/-- `_generate_comments_artifact`: supported set `{json, csv, fcpxml, edl}`. -/
def generateCommentsArtifact (gen : String → Except String String) (fmt : String) :
    Option String × String :=
  if fmt = "json" then dispatchOutcome "Comments" fmt (gen fmt)
  else if fmt = "csv" then dispatchOutcome "Comments" fmt (gen fmt)
  else if fmt = "fcpxml" then dispatchOutcome "Comments" fmt (gen fmt)
  else if fmt = "edl" then dispatchOutcome "Comments" fmt (gen fmt)
  else (none, "Unsupported comments format : format=" ++ fmt)

/-! ### Export-job creation (`app/services/export_service.py`) -/

/-- `OutputFormats` schema: a format list plus the single-segment flag. -/
structure OutputFormats where
  formats : List String
  isSingleSegment : Bool
deriving DecidableEq

/-- `ExportOutputs` schema: per-kind optional format configurations. -/
structure ExportOutputs where
  transcript : Option OutputFormats
  events : Option OutputFormats
  comments : Option OutputFormats
  markers : Option OutputFormats
deriving DecidableEq

/-- The part of `ExportWorkOrderCreate` that `create_export_job` reads. -/
structure ExportWorkOrder where
  repoGuid : String
  outputs : ExportOutputs
deriving DecidableEq

/-- `ExportService._validate_edl_usage`: reject only when the transcript
output configuration is present and its format list contains `"edl"`;
the events/comments/markers lists are not inspected. -/
def validateEdlUsage (workOrder : ExportWorkOrder) : Bool :=
  match workOrder.outputs.transcript with
  | some t => if "edl" ∈ t.formats then false else true
  | none => true

/-- The job row inserted by `create_export_job` (the fields relevant here). -/
structure ExportJobRecord where
  repoGuid : String
  status : String
deriving DecidableEq

/-- `ExportService.create_export_job`: when validation fails the function
returns `None` before any session is opened, so no job row is inserted;
otherwise a pending job row is created and returned. -/
def createExportJob (workOrder : ExportWorkOrder) : Option ExportJobRecord :=
  if validateEdlUsage workOrder then
    some { repoGuid := workOrder.repoGuid, status := "pending" }
  else none

/-! ### Spec-side reference definitions -/

/-- Modelled from the spec: `HH:MM:SS,mmm` with hours/minutes/integer seconds
obtained by floor division from the floor of the seconds value and
milliseconds the fractional remainder times 1000, truncated. -/
def srtTimestampFromSpec (s : ℚ) : String :=
  pyFmtZ 2 (⌊s⌋ / 3600) ++ ":" ++ pyFmtZ 2 (⌊s⌋ % 3600 / 60) ++ ":" ++
  pyFmtZ 2 (⌊s⌋ % 60) ++ "," ++ pyFmtZ 3 ⌊(s - (⌊s⌋ : ℚ)) * 1000⌋

/-- Modelled from the spec: the identical decomposition with `.` before the
milliseconds. -/
def vttTimestampFromSpec (s : ℚ) : String :=
  pyFmtZ 2 (⌊s⌋ / 3600) ++ ":" ++ pyFmtZ 2 (⌊s⌋ % 3600 / 60) ++ ":" ++
  pyFmtZ 2 (⌊s⌋ % 60) ++ "." ++ pyFmtZ 3 ⌊(s - (⌊s⌋ : ℚ)) * 1000⌋

/-! ### Arithmetic helper lemmas -/

theorem pyInt_of_nonneg {q : ℚ} (h : 0 ≤ q) : pyInt q = ⌊q⌋ := by
  unfold pyInt
  rw [if_neg (not_lt.mpr h)]

theorem pyInt_intCast (n : ℤ) : pyInt (n : ℚ) = n := by
  unfold pyInt
  split
  · rw [← Int.cast_neg, Int.floor_intCast, neg_neg]
  · exact Int.floor_intCast n

theorem floor_div_natCast (s : ℚ) (hs : 0 ≤ s) (n : ℕ) : ⌊s / (n : ℚ)⌋ = ⌊s⌋ / (n : ℤ) := by
  have h1 : (0 : ℚ) ≤ s / (n : ℚ) := div_nonneg hs (Nat.cast_nonneg n)
  rw [← Int.natCast_floor_eq_floor h1, Nat.floor_div_nat s n, Int.ofNat_ediv,
    Int.natCast_floor_eq_floor hs]

theorem pyMod_nonneg (a b : ℚ) (hb : 0 < b) : 0 ≤ pyMod a b := by
  have := Int.sub_floor_div_mul_nonneg a hb
  unfold pyMod
  linarith [this]

theorem pyMod_lt (a b : ℚ) (hb : 0 < b) : pyMod a b < b := by
  have := Int.sub_floor_div_mul_lt a hb
  unfold pyMod
  linarith [this]

theorem floor_pyMod (s : ℚ) (hs : 0 ≤ s) (n : ℕ) : ⌊pyMod s (n : ℚ)⌋ = ⌊s⌋ % (n : ℤ) := by
  unfold pyMod
  have h1 : (n : ℚ) * (⌊s / (n : ℚ)⌋ : ℚ) = ((n * ⌊s / (n : ℚ)⌋ : ℤ) : ℚ) := by push_cast; ring
  rw [h1, Int.floor_sub_int, floor_div_natCast s hs n, Int.emod_def]

theorem pyMod_one (s : ℚ) : pyMod s 1 = s - (⌊s⌋ : ℚ) := by
  unfold pyMod
  rw [div_one, one_mul]

theorem pyInt_pyFloorDiv_natCast (s : ℚ) (hs : 0 ≤ s) (n : ℕ) :
    pyInt (pyFloorDiv s (n : ℚ)) = ⌊s⌋ / (n : ℤ) := by
  unfold pyFloorDiv
  rw [pyInt_intCast, floor_div_natCast s hs n]

theorem pyInt_pyMod_natCast (s : ℚ) (hs : 0 ≤ s) (n : ℕ) (hn : 0 < n) :
    pyInt (pyMod s (n : ℚ)) = ⌊s⌋ % (n : ℤ) := by
  have hm : (0 : ℚ) ≤ pyMod s (n : ℚ) := pyMod_nonneg s (n : ℚ) (by exact_mod_cast hn)
  rw [pyInt_of_nonneg hm, floor_pyMod s hs n]

theorem srt_hours_component (s : ℚ) (hs : 0 ≤ s) :
    pyInt (pyFloorDiv s 3600) = ⌊s⌋ / 3600 := by
  have e : (3600 : ℚ) = ((3600 : ℕ) : ℚ) := by norm_num
  rw [e, pyInt_pyFloorDiv_natCast s hs 3600]
  norm_num

theorem srt_minutes_component (s : ℚ) (hs : 0 ≤ s) :
    pyInt (pyFloorDiv (pyMod s 3600) 60) = ⌊s⌋ % 3600 / 60 := by
  have e60 : (60 : ℚ) = ((60 : ℕ) : ℚ) := by norm_num
  have e3600 : (3600 : ℚ) = ((3600 : ℕ) : ℚ) := by norm_num
  have hm : (0 : ℚ) ≤ pyMod s 3600 := pyMod_nonneg s 3600 (by norm_num)
  rw [e60, pyInt_pyFloorDiv_natCast _ hm 60, e3600, floor_pyMod s hs 3600]
  norm_num

theorem srt_secs_component (s : ℚ) (hs : 0 ≤ s) :
    pyInt (pyMod s 60) = ⌊s⌋ % 60 := by
  have e : (60 : ℚ) = ((60 : ℕ) : ℚ) := by norm_num
  rw [e, pyInt_pyMod_natCast s hs 60 (by norm_num)]
  norm_num

theorem srt_millis_component (s : ℚ) :
    pyInt (pyMod s 1 * 1000) = ⌊(s - (⌊s⌋ : ℚ)) * 1000⌋ := by
  rw [pyMod_one]
  exact pyInt_of_nonneg (mul_nonneg (sub_nonneg.mpr (Int.floor_le s)) (by norm_num))

theorem formatSrtTime_eq_spec (s : ℚ) (hs : 0 ≤ s) :
    formatSrtTime s = srtTimestampFromSpec s := by
  unfold formatSrtTime srtTimestampFromSpec
  rw [srt_hours_component s hs, srt_minutes_component s hs, srt_secs_component s hs,
    srt_millis_component s]

theorem formatVttTime_eq_spec (s : ℚ) (hs : 0 ≤ s) :
    formatVttTime s = vttTimestampFromSpec s := by
  unfold formatVttTime vttTimestampFromSpec
  rw [srt_hours_component s hs, srt_minutes_component s hs, srt_secs_component s hs,
    srt_millis_component s]

/-! ### Claim theorems -/

/-- C4: for every non-negative seconds value, the SRT timestamp is
`HH:MM:SS,mmm` with hours, minutes and integer seconds obtained by floor
division and milliseconds equal to the fractional remainder times 1000
truncated (not rounded), and the VTT timestamp is the identical decomposition
with `.` in place of `,`; in particular 3661.25 formats to "01:01:01,250"
(SRT) and "01:01:01.250" (VTT). -/
theorem srt_vtt_timestamp_formatting :
    (∀ s : ℚ, 0 ≤ s →
      formatSrtTime s = srtTimestampFromSpec s ∧ formatVttTime s = vttTimestampFromSpec s) ∧
    formatSrtTime 3661.25 = "01:01:01,250" ∧ formatVttTime 3661.25 = "01:01:01.250" := by
  have hs : (0 : ℚ) ≤ 3661.25 := by norm_num
  refine ⟨fun s h => ⟨formatSrtTime_eq_spec s h, formatVttTime_eq_spec s h⟩, ?_, ?_⟩
  · rw [formatSrtTime_eq_spec 3661.25 hs]
    unfold srtTimestampFromSpec
    norm_num
    decide
  · rw [formatVttTime_eq_spec 3661.25 hs]
    unfold vttTimestampFromSpec
    norm_num
    decide

/-- C4 witness: the universally quantified part of the claim applied at the
concrete input 3661.25. -/
theorem srt_vtt_timestamp_formatting_witness :
    (0 : ℚ) ≤ 3661.25 ∧ formatSrtTime 3661.25 = srtTimestampFromSpec 3661.25 :=
  ⟨by norm_num, (srt_vtt_timestamp_formatting.1 3661.25 (by norm_num)).1⟩

theorem pyRound_nearest (q : ℚ) : |q - (pyRound q : ℚ)| ≤ 1 / 2 := by
  have h1 : (⌊q⌋ : ℚ) ≤ q := Int.floor_le q
  have h2 : q < ⌊q⌋ + 1 := Int.lt_floor_add_one q
  unfold pyRound
  split
  · rename_i h
    rw [abs_le]
    constructor <;> linarith
  · rename_i h
    rw [not_lt] at h
    split
    · rename_i h'
      rw [abs_le]
      push_cast
      constructor <;> linarith
    · rename_i h'
      rw [not_lt] at h'
      split
      · rw [abs_le]
        constructor <;> linarith
      · rw [abs_le]
        push_cast
        constructor <;> linarith

/-- C5: at every non-negative seconds value the SMPTE timecode's frame
component is the fractional remainder times fps truncated, while the
frame-count conversion used for XMEML marker placement is seconds times fps
rounded to the nearest integer (within one half), and at `3/50` seconds and
25 fps the rounded frame index exceeds the truncated frame component by
exactly one. -/
theorem timecode_truncation_vs_frame_rounding :
    (∀ s : ℚ, 0 ≤ s → ∀ fps : ℤ, 0 ≤ fps →
      timecodeFrames s fps = ⌊(s - (⌊s⌋ : ℚ)) * (fps : ℚ)⌋) ∧
    (∀ (s : ℚ) (fps : ℤ), |s * (fps : ℚ) - (secondsToFrames s fps : ℚ)| ≤ 1 / 2) ∧
    secondsToFrames (3 / 50) 25 = timecodeFrames (3 / 50) 25 + 1 := by
  refine ⟨fun s hs fps hfps => ?_, fun s fps => pyRound_nearest (s * (fps : ℚ)), ?_⟩
  · unfold timecodeFrames
    rw [pyInt_of_nonneg hs]
    exact pyInt_of_nonneg
      (mul_nonneg (sub_nonneg.mpr (Int.floor_le s)) (by exact_mod_cast hfps))
  · norm_num [secondsToFrames, timecodeFrames, pyInt, pyRound]

/-- C5 witness: the truncation leg of the claim applied at `3/50` seconds and
25 fps. -/
theorem timecode_truncation_vs_frame_rounding_witness :
    (0 : ℚ) ≤ 3 / 50 ∧ (0 : ℤ) ≤ 25 ∧
      timecodeFrames (3 / 50) 25 = ⌊((3 / 50 : ℚ) - (⌊(3 / 50 : ℚ)⌋ : ℚ)) * ((25 : ℤ) : ℚ)⌋ :=
  ⟨by norm_num, by norm_num,
    timecode_truncation_vs_frame_rounding.1 (3 / 50) (by norm_num) 25 (by norm_num)⟩

theorem sumDurations_nil : sumDurations [] = 0 := by
  simp [sumDurations]

theorem sumDurations_cons (e : EdlEvent) (l : List EdlEvent) :
    sumDurations (e :: l) = (e.stop - e.start) + sumDurations l := by
  simp [sumDurations]

theorem edlEditsAux_map_index (i : Nat) (r : ℚ) (events : List EdlEvent) :
    (edlEditsAux i r events).map EdlEdit.index = List.range' i events.length := by
  induction events generalizing i r with
  | nil => simp [edlEditsAux]
  | cons e rest ih => simp [edlEditsAux, List.range'_succ, ih]

theorem edlEditsAux_map_recordIn (i : Nat) (r : ℚ) (events : List EdlEvent) :
    (edlEditsAux i r events).map EdlEdit.recordIn =
      (List.range events.length).map
        (fun k => secondsToTimecode (r + sumDurations (events.take k))) := by
  induction events generalizing i r with
  | nil => simp [edlEditsAux]
  | cons e rest ih =>
    simp only [edlEditsAux, List.map_cons, List.length_cons, List.range_succ_eq_map,
      List.map_map, List.take_zero, sumDurations_nil, add_zero, ih]
    congr 1
    apply List.map_congr_left
    intro k _
    simp only [Function.comp_apply, List.take_succ_cons, sumDurations_cons]
    rw [add_assoc]

theorem edlEditsAux_map_recordOut (i : Nat) (r : ℚ) (events : List EdlEvent) :
    (edlEditsAux i r events).map EdlEdit.recordOut =
      (List.range events.length).map
        (fun k => secondsToTimecode (r + sumDurations (events.take (k + 1)))) := by
  induction events generalizing i r with
  | nil => simp [edlEditsAux]
  | cons e rest ih =>
    simp only [edlEditsAux, List.map_cons, List.length_cons, List.range_succ_eq_map,
      List.map_map, List.take_succ_cons, List.take_zero, sumDurations_cons,
      sumDurations_nil, add_zero, ih]
    congr 1
    apply List.map_congr_left
    intro k _
    simp only [Function.comp_apply, List.take_succ_cons, sumDurations_cons]
    rw [add_assoc]

theorem edlEditsAux_map_sourceIn (i : Nat) (r : ℚ) (events : List EdlEvent) :
    (edlEditsAux i r events).map EdlEdit.sourceIn =
      events.map (fun e => secondsToTimecode e.start) := by
  induction events generalizing i r with
  | nil => simp [edlEditsAux]
  | cons e rest ih => simp [edlEditsAux, ih]

theorem edlEditsAux_map_sourceOut (i : Nat) (r : ℚ) (events : List EdlEvent) :
    (edlEditsAux i r events).map EdlEdit.sourceOut =
      events.map (fun e => secondsToTimecode e.stop) := by
  induction events generalizing i r with
  | nil => simp [edlEditsAux]
  | cons e rest ih => simp [edlEditsAux, ih]

theorem secondsToTimecode_zero : secondsToTimecode 0 = "00:00:00:00" := by
  unfold secondsToTimecode timecodeFrames FPS pyInt
  norm_num
  decide

theorem secondsToTimecode_two : secondsToTimecode 2 = "00:00:02:00" := by
  unfold secondsToTimecode timecodeFrames FPS pyInt
  norm_num
  decide

theorem secondsToTimecode_five : secondsToTimecode 5 = "00:00:05:00" := by
  unfold secondsToTimecode timecodeFrames FPS pyInt
  norm_num
  decide

/-- C1: EDL assembly emits one edit per record in exact input order with
1-based indices; the record-side in/out timecodes come from a running cursor
that starts at 0 and advances by each record's `(end - start)` duration, so
they depend only on durations; in particular three records with durations
[2,3,1] seconds yield record-in timecodes 00:00:00:00, 00:00:02:00,
00:00:05:00 at the default 25 fps, whatever their absolute start times. -/
theorem edl_record_cursor_and_order :
    (∀ events : List EdlEvent,
      (generateEventsEdl events).map EdlEdit.index = List.range' 1 events.length ∧
      (generateEventsEdl events).map EdlEdit.recordIn =
        (List.range events.length).map
          (fun k => secondsToTimecode (sumDurations (events.take k))) ∧
      (generateEventsEdl events).map EdlEdit.recordOut =
        (List.range events.length).map
          (fun k => secondsToTimecode (sumDurations (events.take (k + 1)))) ∧
      (generateEventsEdl events).map EdlEdit.sourceIn =
        events.map (fun e => secondsToTimecode e.start) ∧
      (generateEventsEdl events).map EdlEdit.sourceOut =
        events.map (fun e => secondsToTimecode e.stop)) ∧
    (∀ s1 s2 s3 : ℚ,
      (generateEventsEdl
          [{ id := none, sdnaEventType := none, eventValue := none, start := s1, stop := s1 + 2 },
           { id := none, sdnaEventType := none, eventValue := none, start := s2, stop := s2 + 3 },
           { id := none, sdnaEventType := none, eventValue := none, start := s3, stop := s3 + 1 }]).map
        EdlEdit.recordIn = ["00:00:00:00", "00:00:02:00", "00:00:05:00"]) := by
  constructor
  · intro events
    refine ⟨edlEditsAux_map_index 1 0 events, ?_, ?_,
      edlEditsAux_map_sourceIn 1 0 events, edlEditsAux_map_sourceOut 1 0 events⟩
    · rw [generateEventsEdl, edlEditsAux_map_recordIn 1 0 events]
      apply List.map_congr_left
      intro k _
      rw [zero_add]
    · rw [generateEventsEdl, edlEditsAux_map_recordOut 1 0 events]
      apply List.map_congr_left
      intro k _
      rw [zero_add]
  · intro s1 s2 s3
    show (edlEditsAux 1 0 _).map EdlEdit.recordIn = _
    simp only [edlEditsAux, List.map_cons, List.map_nil]
    have e2 : ((0 : ℚ) + (s1 + 2 - s1)) + (s2 + 3 - s2) = 5 := by ring
    have e1 : (0 : ℚ) + (s1 + 2 - s1) = 2 := by ring
    rw [e2, e1, secondsToTimecode_zero, secondsToTimecode_two, secondsToTimecode_five]

theorem formatVttTime_zero : formatVttTime 0 = "00:00:00.000" := by
  rw [formatVttTime_eq_spec 0 le_rfl]
  unfold vttTimestampFromSpec
  norm_num
  decide

theorem formatVttTime_one : formatVttTime 1 = "00:00:01.000" := by
  rw [formatVttTime_eq_spec 1 zero_le_one]
  unfold vttTimestampFromSpec
  norm_num
  decide

theorem vttEmit_skip_text (n : Nat) (seg : VttSegment)
    (h1 : pyStrip (seg.eventValue.getD "") = "") : vttEmit (n, seg) = none := by
  unfold vttEmit
  exact if_pos h1

theorem vttEmit_emit (n : Nat) (seg : VttSegment)
    (h1 : pyStrip (seg.eventValue.getD "") ≠ "")
    (h2 : pyStrLt (formatVttTime (seg.start.getD 0)) (formatVttTime (seg.stop.getD 0)) = true) :
    vttEmit (n, seg) = some
      { num := n, startTs := formatVttTime (seg.start.getD 0),
        stopTs := formatVttTime (seg.stop.getD 0), text := pyStrip (seg.eventValue.getD "") } := by
  unfold vttEmit
  rw [if_neg h1, if_pos h2]

theorem vttCuesAux_eq_filterMap (n : Nat) (segments : List VttSegment) :
    vttCuesAux n segments = (List.enumFrom n segments).filterMap vttEmit := by
  induction segments generalizing n with
  | nil => rfl
  | cons seg rest ih =>
    by_cases h1 : pyStrip (seg.eventValue.getD "") = ""
    · simp [vttCuesAux, List.enumFrom, List.filterMap_cons, vttEmit, h1, ih]
    · by_cases h2 : pyStrLt (formatVttTime (seg.start.getD 0))
          (formatVttTime (seg.stop.getD 0)) = true
      · simp [vttCuesAux, List.enumFrom, List.filterMap_cons, vttEmit, h1, h2, ih]
      · simp [vttCuesAux, List.enumFrom, List.filterMap_cons, vttEmit, h1, h2, ih]

/-- C2 (amended): a segment with empty or whitespace-only text emits no cue,
and a segment whose formatted end timestamp is not strictly greater than its
formatted start emits no cue; but the cue number written is the segment's
1-based position in the input list (the enumerate index), so a skipped
segment does consume its number and the emitted numbers need not be gapless. -/
theorem vtt_skip_rules_and_position_numbering :
    ∀ segments : List VttSegment,
      generateTranscriptVtt segments = (List.enumFrom 1 segments).filterMap vttEmit ∧
      ∀ cue ∈ generateTranscriptVtt segments,
        cue.text ≠ "" ∧ pyStrLt cue.startTs cue.stopTs = true := by
  intro segments
  refine ⟨vttCuesAux_eq_filterMap 1 segments, fun cue hcue => ?_⟩
  rw [generateTranscriptVtt, vttCuesAux_eq_filterMap 1 segments, List.mem_filterMap] at hcue
  obtain ⟨p, _, hemit⟩ := hcue
  by_cases h1 : pyStrip (p.2.eventValue.getD "") = ""
  · rw [vttEmit_skip_text p.1 p.2 h1] at hemit
    exact absurd hemit (by simp)
  · by_cases h2 : pyStrLt (formatVttTime (p.2.start.getD 0))
        (formatVttTime (p.2.stop.getD 0)) = true
    · rw [vttEmit_emit p.1 p.2 h1 h2] at hemit
      cases hemit
      exact ⟨h1, h2⟩
    · unfold vttEmit at hemit
      rw [if_neg h1, if_neg h2] at hemit
      exact absurd hemit (by simp)

/-- C2 witness: the amended theorem applied to a concrete one-segment list and
to the cue it emits — the emitted cue has non-empty text and strictly
increasing formatted timestamps. -/
theorem vtt_skip_rules_and_position_numbering_witness :
    ({ num := 1, startTs := "00:00:00.000", stopTs := "00:00:01.000",
       text := "hi" } : VttCue).text ≠ "" ∧
    pyStrLt "00:00:00.000" "00:00:01.000" = true := by
  have h := vtt_skip_rules_and_position_numbering
    [{ eventValue := some "hi", start := some 0, stop := some 1 }]
  have hval : generateTranscriptVtt
      [{ eventValue := some "hi", start := some 0, stop := some 1 }] =
      [{ num := 1, startTs := "00:00:00.000", stopTs := "00:00:01.000", text := "hi" }] := by
    rw [h.1]
    have e2 : vttEmit (1, { eventValue := some "hi", start := some 0, stop := some 1 }) =
        some { num := 1, startTs := formatVttTime ((0 : ℚ)), stopTs := formatVttTime ((1 : ℚ)),
               text := "hi" } := by
      refine vttEmit_emit 1 _ (by decide) ?_
      show pyStrLt (formatVttTime ((some (0 : ℚ)).getD 0))
        (formatVttTime ((some (1 : ℚ)).getD 0)) = true
      rw [show ((some (0 : ℚ)).getD 0) = (0 : ℚ) from rfl,
        show ((some (1 : ℚ)).getD 0) = (1 : ℚ) from rfl, formatVttTime_zero, formatVttTime_one]
      decide
    simp only [List.enumFrom, List.filterMap_cons, List.filterMap_nil, e2,
      formatVttTime_zero, formatVttTime_one]
  exact h.2 _ (by rw [hval]; exact List.mem_cons_self _ _)

/-- C2 counterexample: on a list whose first segment has empty text and whose
second is a valid cue, the written cue numbers are [2], not the gapless
counter [1] over the single emitted cue — a skipped segment does consume a
cue-number slot. -/
theorem vtt_gapless_numbering_counterexample :
    (generateTranscriptVtt
        [{ eventValue := some "", start := some 0, stop := some 1 },
         { eventValue := some "hi", start := some 0, stop := some 1 }]).map VttCue.num = [2] ∧
    (generateTranscriptVtt
        [{ eventValue := some "", start := some 0, stop := some 1 },
         { eventValue := some "hi", start := some 0, stop := some 1 }]).map VttCue.num ≠
      List.range' 1
        (generateTranscriptVtt
          [{ eventValue := some "", start := some 0, stop := some 1 },
           { eventValue := some "hi", start := some 0, stop := some 1 }]).length := by
  have hval : generateTranscriptVtt
      [{ eventValue := some "", start := some 0, stop := some 1 },
       { eventValue := some "hi", start := some 0, stop := some 1 }] =
      [{ num := 2, startTs := "00:00:00.000", stopTs := "00:00:01.000", text := "hi" }] := by
    rw [generateTranscriptVtt, vttCuesAux_eq_filterMap]
    have e1 : vttEmit (1, { eventValue := some "", start := some 0, stop := some 1 }) = none :=
      vttEmit_skip_text 1 _ rfl
    have e2 : vttEmit (2, { eventValue := some "hi", start := some 0, stop := some 1 }) =
        some { num := 2, startTs := formatVttTime ((0 : ℚ)), stopTs := formatVttTime ((1 : ℚ)),
               text := "hi" } := by
      refine vttEmit_emit 2 _ (by decide) ?_
      show pyStrLt (formatVttTime ((some (0 : ℚ)).getD 0)) (formatVttTime ((some (1 : ℚ)).getD 0)) = true
      rw [show ((some (0 : ℚ)).getD 0) = (0 : ℚ) from rfl,
        show ((some (1 : ℚ)).getD 0) = (1 : ℚ) from rfl, formatVttTime_zero, formatVttTime_one]
      decide
    simp only [List.enumFrom, List.filterMap_cons, List.filterMap_nil, e1, e2,
      formatVttTime_zero, formatVttTime_one]
  rw [hval]
  constructor
  · rfl
  · decide

theorem except_bind_ok {ε α β : Type} (a : α) (f : α → Except ε β) :
    (do let x ← (Except.ok a : Except ε α); f x) = f a := rfl

theorem pyMinFold_num (a : ℚ) (xs : List ℚ) :
    pyMinFold (.num a) (xs.map PyVal.num) = .ok (.num (xs.foldl min a)) := by
  induction xs generalizing a with
  | nil => rfl
  | cons x rest ih =>
    simp only [List.map_cons, pyMinFold, pyValLt, except_bind_ok, List.foldl_cons, decide_eq_true_eq]
    by_cases h : x < a
    · rw [if_pos h, min_eq_right h.le]
      exact ih x
    · rw [if_neg h, min_eq_left (not_lt.mp h)]
      exact ih a

theorem pyMaxFold_num (a : ℚ) (xs : List ℚ) :
    pyMaxFold (.num a) (xs.map PyVal.num) = .ok (.num (xs.foldl max a)) := by
  induction xs generalizing a with
  | nil => rfl
  | cons x rest ih =>
    simp only [List.map_cons, pyMaxFold, pyValLt, except_bind_ok, List.foldl_cons, decide_eq_true_eq]
    by_cases h : a < x
    · rw [if_pos h, max_eq_right h.le]
      exact ih x
    · rw [if_neg h, max_eq_left (not_lt.mp h)]
      exact ih a

theorem foldl_min_mem (xs : List ℚ) : ∀ a : ℚ, xs.foldl min a ∈ a :: xs := by
  induction xs with
  | nil => exact fun a => List.mem_singleton.mpr rfl
  | cons x rest ih =>
    intro a
    rw [List.foldl_cons]
    rcases List.mem_cons.mp (ih (min a x)) with h | h
    · rcases min_choice a x with hm | hm
      · rw [h, hm]
        exact List.mem_cons_self _ _
      · rw [h, hm]
        exact List.mem_cons_of_mem _ (List.mem_cons_self _ _)
    · exact List.mem_cons_of_mem _ (List.mem_cons_of_mem _ h)

theorem foldl_min_le (xs : List ℚ) : ∀ a : ℚ, ∀ x ∈ a :: xs, xs.foldl min a ≤ x := by
  induction xs with
  | nil =>
    intro a x hx
    rw [List.foldl_nil, List.mem_singleton.mp hx]
  | cons y rest ih =>
    intro a x hx
    rw [List.foldl_cons]
    rcases List.mem_cons.mp hx with h | h
    · rw [h]
      exact le_trans (ih (min a y) (min a y) (List.mem_cons_self _ _)) (min_le_left a y)
    · rcases List.mem_cons.mp h with h' | h'
      · rw [h']
        exact le_trans (ih (min a y) (min a y) (List.mem_cons_self _ _)) (min_le_right a y)
      · exact ih (min a y) x (List.mem_cons_of_mem _ h')

theorem foldl_max_mem (xs : List ℚ) : ∀ a : ℚ, xs.foldl max a ∈ a :: xs := by
  induction xs with
  | nil => exact fun a => List.mem_singleton.mpr rfl
  | cons x rest ih =>
    intro a
    rw [List.foldl_cons]
    rcases List.mem_cons.mp (ih (max a x)) with h | h
    · rcases max_choice a x with hm | hm
      · rw [h, hm]
        exact List.mem_cons_self _ _
      · rw [h, hm]
        exact List.mem_cons_of_mem _ (List.mem_cons_self _ _)
    · exact List.mem_cons_of_mem _ (List.mem_cons_of_mem _ h)

theorem foldl_max_ge (xs : List ℚ) : ∀ a : ℚ, ∀ x ∈ a :: xs, x ≤ xs.foldl max a := by
  induction xs with
  | nil =>
    intro a x hx
    rw [List.foldl_nil, List.mem_singleton.mp hx]
  | cons y rest ih =>
    intro a x hx
    rw [List.foldl_cons]
    rcases List.mem_cons.mp hx with h | h
    · rw [h]
      exact le_trans (le_max_left a y) (ih (max a y) (max a y) (List.mem_cons_self _ _))
    · rcases List.mem_cons.mp h with h' | h'
      · rw [h']
        exact le_trans (le_max_right a y) (ih (max a y) (max a y) (List.mem_cons_self _ _))
      · exact ih (max a y) x (List.mem_cons_of_mem _ h')

theorem mergedText_eq_spec (segments : List TranscriptSegment) :
    mergedTranscriptText segments = mergedTextFromSpec segments := by
  unfold mergedTranscriptText mergedTextFromSpec
  congr 1
  induction segments with
  | nil => rfl
  | cons g rest ih =>
    cases hv : g.eventValue with
    | none => simp [List.filterMap_cons, List.filter_cons, hv, ih]
    | some v =>
      by_cases he : v = ""
      · simp [List.filterMap_cons, List.filter_cons, hv, he, ih]
      · simp [List.filterMap_cons, List.filter_cons, hv, he, ih]

/-- C3: for every non-empty segment list whose effective start/end values are
numeric, the single-segment merge outputs exactly one segment: its text is
the space-joined trimmed concatenation of the non-empty values, its start is
the minimum and its end the maximum over the effective values, and its
identifier is the fixed placeholder "1". -/
theorem transcript_single_segment_merge :
    ∀ (segments : List TranscriptSegment) (starts stops : List ℚ),
      segments ≠ [] →
      segments.map startOrZero = starts.map PyVal.num →
      segments.map stopOrZero = stops.map PyVal.num →
      ∃ mn mx : ℚ,
        generateTranscriptJson segments true =
          .ok [{ id := some "1", sdnaEventType := some "transcript",
                 eventValue := some (mergedTextFromSpec segments), fullPath := none,
                 start := some (.num mn), stop := some (.num mx) }] ∧
        mn ∈ starts ∧ (∀ x ∈ starts, mn ≤ x) ∧ mx ∈ stops ∧ (∀ x ∈ stops, x ≤ mx) := by
  intro segments starts stops hne hst hsp
  obtain ⟨s0, srest, rfl⟩ : ∃ a l, starts = a :: l := by
    cases starts with
    | nil =>
      rw [List.map_nil, List.map_eq_nil_iff] at hst
      exact absurd hst hne
    | cons a l => exact ⟨a, l, rfl⟩
  obtain ⟨t0, trest, rfl⟩ : ∃ a l, stops = a :: l := by
    cases stops with
    | nil =>
      rw [List.map_nil, List.map_eq_nil_iff] at hsp
      exact absurd hsp hne
    | cons a l => exact ⟨a, l, rfl⟩
  refine ⟨srest.foldl min s0, trest.foldl max t0, ?_, foldl_min_mem srest s0,
    foldl_min_le srest s0, foldl_max_mem trest t0, foldl_max_ge trest t0⟩
  have hmin : pyMinList (segments.map startOrZero) = .ok (.num (srest.foldl min s0)) := by
    rw [hst, List.map_cons, pyMinList, pyMinFold_num]
  have hmax : pyMaxList (segments.map stopOrZero) = .ok (.num (trest.foldl max t0)) := by
    rw [hsp, List.map_cons, pyMaxList, pyMaxFold_num]
  have hattempt : mergeAttempt segments =
      .ok [{ id := some "1", sdnaEventType := some "transcript",
             eventValue := some (mergedTextFromSpec segments), fullPath := none,
             start := some (.num (srest.foldl min s0)),
             stop := some (.num (trest.foldl max t0)) }] := by
    unfold mergeAttempt
    rw [hmin, hmax, mergedText_eq_spec]
    rfl
  unfold generateTranscriptJson
  rw [if_pos ⟨rfl, hne⟩, hattempt]

/-- C3 witness: merging [{start 1, end 3, value "a"}, {start 2, end 5,
value "b"}] yields exactly one segment {start 1, end 5, value "a b"} with the
placeholder identifier. -/
theorem transcript_single_segment_merge_witness :
    generateTranscriptJson
        [{ id := some "e1", sdnaEventType := some "transcript", eventValue := some "a",
           fullPath := none, start := some (.num 1), stop := some (.num 3) },
         { id := some "e2", sdnaEventType := some "transcript", eventValue := some "b",
           fullPath := none, start := some (.num 2), stop := some (.num 5) }] true =
      .ok [{ id := some "1", sdnaEventType := some "transcript", eventValue := some "a b",
             fullPath := none, start := some (.num 1), stop := some (.num 5) }] := by
  obtain ⟨mn, mx, heq, hmem, hle, hmem2, hge2⟩ :=
    transcript_single_segment_merge
      [{ id := some "e1", sdnaEventType := some "transcript", eventValue := some "a",
         fullPath := none, start := some (.num 1), stop := some (.num 3) },
       { id := some "e2", sdnaEventType := some "transcript", eventValue := some "b",
         fullPath := none, start := some (.num 2), stop := some (.num 5) }]
      [1, 2] [3, 5] (List.cons_ne_nil _ _) rfl rfl
  have hmn : mn = 1 := by
    rcases List.mem_cons.mp hmem with h | h
    · exact h
    · rw [List.mem_singleton.mp h] at hle ⊢
      have := hle 1 (List.mem_cons_self _ _)
      norm_num at this
  have hmx : mx = 5 := by
    rcases List.mem_cons.mp hmem2 with h | h
    · rw [h] at hge2 ⊢
      have := hge2 5 (by simp)
      norm_num at this
    · exact List.mem_singleton.mp h
  rw [hmn, hmx] at heq
  rw [show mergedTextFromSpec
      [{ id := some "e1", sdnaEventType := some "transcript", eventValue := some "a",
         fullPath := none, start := some (.num 1), stop := some (.num 3) },
       { id := some "e2", sdnaEventType := some "transcript", eventValue := some "b",
         fullPath := none, start := some (.num 2), stop := some (.num 5) }] = "a b" from rfl] at heq
  exact heq

/-- C9: when the merge computation of the single-segment branch raises, the
transcript JSON builder does not return normally and never substitutes a
merged segment: the unassigned `cleaned_segments` makes the final access
raise (UnboundLocalError); dually, a successful result from the merge branch
comes only from a successful merge computation. -/
theorem transcript_merge_failure_fallback :
    ∀ segments : List TranscriptSegment,
      (∀ e, segments ≠ [] → mergeAttempt segments = .error e →
        generateTranscriptJson segments true = .error "UnboundLocalError: cleaned_segments") ∧
      (∀ out, segments ≠ [] → generateTranscriptJson segments true = .ok out →
        mergeAttempt segments = .ok out) := by
  intro segments
  constructor
  · intro e hne herr
    unfold generateTranscriptJson
    rw [if_pos ⟨rfl, hne⟩, herr]
  · intro out hne hok
    unfold generateTranscriptJson at hok
    rw [if_pos ⟨rfl, hne⟩] at hok
    cases h : mergeAttempt segments with
    | ok cs =>
      rw [h] at hok
      cases hok
      rfl
    | error e =>
      rw [h] at hok
      exact absurd hok (by simp)

/-- C9 witness: a list whose first start value is the non-numeric string "x"
makes `min` raise TypeError inside the merge computation, and the builder
then raises instead of returning segments. -/
theorem transcript_merge_failure_fallback_witness :
    generateTranscriptJson
        [{ id := none, sdnaEventType := none, eventValue := some "a", fullPath := none,
           start := some (.str "x"), stop := some (.num 1) },
         { id := none, sdnaEventType := none, eventValue := some "b", fullPath := none,
           start := some (.num 0), stop := some (.num 2) }] true =
      .error "UnboundLocalError: cleaned_segments" :=
  (transcript_merge_failure_fallback
    [{ id := none, sdnaEventType := none, eventValue := some "a", fullPath := none,
       start := some (.str "x"), stop := some (.num 1) },
     { id := none, sdnaEventType := none, eventValue := some "b", fullPath := none,
       start := some (.num 0), stop := some (.num 2) }]).1 "TypeError"
    (List.cons_ne_nil _ _) rfl

/-- C6: a requested format identifier outside the supported set of an
artifact kind makes the dispatcher return a null path paired with a message
naming the unsupported format, whatever the per-format generators do — the
unsupported branch raises nothing, so sibling formats proceed. -/
theorem unsupported_format_dispatch :
    ∀ (gen : String → Except String String) (fmt : String),
      (fmt ∉ (["json", "srt", "vtt", "fcpxml"] : List String) →
        generateTranscriptArtifact gen fmt =
          (none, "Unsupported transcript format : format=" ++ fmt)) ∧
      (fmt ∉ (["json", "csv", "fcpxml", "edl"] : List String) →
        generateEventsArtifact gen fmt = (none, "Unsupported events format : format=" ++ fmt) ∧
        generateCommentsArtifact gen fmt =
          (none, "Unsupported comments format : format=" ++ fmt)) := by
  intro gen fmt
  constructor
  · intro h
    simp only [List.mem_cons, List.not_mem_nil, or_false, not_or] at h
    obtain ⟨h1, h2, h3, h4⟩ := h
    unfold generateTranscriptArtifact
    rw [if_neg h1, if_neg h2, if_neg h3, if_neg h4]
  · intro h
    simp only [List.mem_cons, List.not_mem_nil, or_false, not_or] at h
    obtain ⟨h1, h2, h3, h4⟩ := h
    constructor
    · unfold generateEventsArtifact
      rw [if_neg h1, if_neg h2, if_neg h3, if_neg h4]
    · unfold generateCommentsArtifact
      rw [if_neg h1, if_neg h2, if_neg h3, if_neg h4]

/-- C6 witness: the unsupported identifier "xyz" under an arbitrary generator
yields the null path and naming message for all three artifact kinds. -/
theorem unsupported_format_dispatch_witness :
    generateTranscriptArtifact (fun f => Except.ok f) "xyz" =
      (none, "Unsupported transcript format : format=xyz") ∧
    generateEventsArtifact (fun f => Except.ok f) "xyz" =
      (none, "Unsupported events format : format=xyz") ∧
    generateCommentsArtifact (fun f => Except.ok f) "xyz" =
      (none, "Unsupported comments format : format=xyz") :=
  ⟨(unsupported_format_dispatch (fun f => Except.ok f) "xyz").1 (by decide),
   ((unsupported_format_dispatch (fun f => Except.ok f) "xyz").2 (by decide)).1,
   ((unsupported_format_dispatch (fun f => Except.ok f) "xyz").2 (by decide)).2⟩

theorem pySplit_no_sep (sep : Char) (l : List Char) (h : sep ∉ l) : pySplit sep l = [l] := by
  induction l with
  | nil => rfl
  | cons c rest ih =>
    have hc : ¬(c = sep) := fun e => h (by rw [e]; exact List.mem_cons_self _ _)
    have hrest : sep ∉ rest := fun e => h (List.mem_cons_of_mem _ e)
    simp [pySplit, hc, ih hrest]

theorem pySplit_append (sep : Char) (num rest : List Char) (h : sep ∉ num) :
    pySplit sep (num ++ sep :: rest) = num :: pySplit sep rest := by
  induction num with
  | nil => simp [pySplit]
  | cons c ntail ih =>
    have hc : ¬(c = sep) := fun e => h (by rw [e]; exact List.mem_cons_self _ _)
    have htail : sep ∉ ntail := fun e => h (List.mem_cons_of_mem _ e)
    rw [List.cons_append]
    simp [pySplit, hc, ih htail]

/-- C7 (amended): for a rational fps string built as `num ++ "/" ++ den` with
slash-free parts, the frame-duration conversion returns the reciprocal string
`den ++ "/" ++ num ++ "s"`; a plain integer-string fps such as "25" is NOT
tolerated — the two-name tuple unpacking of the one-part split raises
ValueError. -/
theorem fps_to_frame_duration_reciprocal :
    ∀ num den : List Char, '/' ∉ num → '/' ∉ den →
      fpsToFrameDuration (String.mk (num ++ '/' :: den)) =
        .ok (String.mk den ++ "/" ++ String.mk num ++ "s") := by
  intro num den hn hd
  unfold fpsToFrameDuration
  rw [show (String.mk (num ++ '/' :: den)).data = num ++ '/' :: den from rfl,
    pySplit_append '/' num den hn, pySplit_no_sep '/' den hd]

/-- C7 witness: the reciprocal conversion at "30000/1001". -/
theorem fps_to_frame_duration_reciprocal_witness :
    fpsToFrameDuration "30000/1001" = .ok "1001/30000s" :=
  fps_to_frame_duration_reciprocal "30000".data "1001".data (by decide) (by decide)

/-- C7 counterexample: the plain integer-string input "25" raises instead of
being tolerated, refuting the claim's integer-string leg. -/
theorem fps_integer_string_counterexample :
    fpsToFrameDuration "25" = .error "ValueError: tuple unpacking expected exactly 2 values" :=
  rfl

theorem pyDictGet_cons_of_ne (d : List (String × String)) (k v key : String) (h : k ≠ key) :
    pyDictGet ((k, v) :: d) key = pyDictGet d key := by
  unfold pyDictGet
  rw [List.find?_cons_of_neg _ (by simp [h])]

theorem pyDictGet_filter_none (c : List (String × String)) (p : String × String → Bool)
    (h : String) (hn : pyDictGet c h = none) : pyDictGet (c.filter p) h = none := by
  induction c with
  | nil => rfl
  | cons a rest ih =>
    have hk : ¬(a.1 = h) := by
      intro e
      unfold pyDictGet at hn
      rw [List.find?_cons_of_pos _ (by simp [e])] at hn
      simp at hn
    have hrest : pyDictGet rest h = none := by
      unfold pyDictGet at hn ⊢
      rw [List.find?_cons_of_neg _ (by simp [hk])] at hn
      exact hn
    rw [List.filter_cons]
    split
    · unfold pyDictGet
      rw [List.find?_cons_of_neg _ (by simp [hk])]
      exact ih hrest
    · exact ih hrest

/-- C8: the CSV renderers write the fixed header rows (events: id,
sdnaEventType, eventValue, start, end; insights: the same plus source), every
record yields a row, a record missing any of the fixed fields gets an empty
cell in that field's column without raising — stated per column position for
both renderers, with the `end` example kept explicitly — and fields outside
the fixed column set do not affect the produced row. -/
theorem csv_fixed_columns_missing_and_extra_fields :
    ((generateEventsCsv []).head? = some ["id", "sdnaEventType", "eventValue", "start", "end"]) ∧
    ((generateInsightsCsv []).head? =
      some ["id", "sdnaEventType", "eventValue", "start", "end", "source"]) ∧
    (∀ segments, (generateEventsCsv segments).head? = some eventsCsvHeaders ∧
      (generateEventsCsv segments).length = segments.length + 1) ∧
    (∀ ev, pyDictGet ev "end" = none →
      ∃ c1 c2 c3 c4, eventsCsvRow ev = [c1, c2, c3, c4, ""]) ∧
    (∀ (ev : List (String × String)) (k : Nat) (h : String), eventsCsvHeaders[k]? = some h →
      pyDictGet ev h = none → (eventsCsvRow ev)[k]? = some "") ∧
    (∀ (c : List (String × String)) (k : Nat) (h : String), insightsCsvHeaders[k]? = some h →
      pyDictGet c h = none → (insightsCsvRow c)[k]? = some "") ∧
    (∀ ev k v, k ∉ eventsCsvHeaders → eventsCsvRow ((k, v) :: ev) = eventsCsvRow ev) ∧
    (∀ c k v, k ∉ insightsCsvHeaders → insightsCsvRow ((k, v) :: c) = insightsCsvRow c) := by
  refine ⟨rfl, rfl, fun segments => ⟨rfl, by simp [generateEventsCsv]⟩, ?_, ?_, ?_, ?_, ?_⟩
  · intro ev h
    refine ⟨csvCell (pyDictGet ev "id"), csvCell (pyDictGet ev "sdnaEventType"),
      csvCell (pyDictGet ev "eventValue"), csvCell (pyDictGet ev "start"), ?_⟩
    unfold eventsCsvRow
    rw [h]
    rfl
  · intro ev k h hk hnone
    rcases k with _ | _ | _ | _ | _ | k
    · simp only [eventsCsvHeaders, List.getElem?_cons_zero, Option.some.injEq] at hk
      subst hk
      simp [eventsCsvRow, hnone, csvCell]
    · simp only [eventsCsvHeaders, List.getElem?_cons_succ, List.getElem?_cons_zero,
        Option.some.injEq] at hk
      subst hk
      simp [eventsCsvRow, hnone, csvCell]
    · simp only [eventsCsvHeaders, List.getElem?_cons_succ, List.getElem?_cons_zero,
        Option.some.injEq] at hk
      subst hk
      simp [eventsCsvRow, hnone, csvCell]
    · simp only [eventsCsvHeaders, List.getElem?_cons_succ, List.getElem?_cons_zero,
        Option.some.injEq] at hk
      subst hk
      simp [eventsCsvRow, hnone, csvCell]
    · simp only [eventsCsvHeaders, List.getElem?_cons_succ, List.getElem?_cons_zero,
        Option.some.injEq] at hk
      subst hk
      simp [eventsCsvRow, hnone, csvCell]
    · simp [eventsCsvHeaders] at hk
  · intro c k h hk hnone
    have hfil : pyDictGet (c.filter fun p => p.1 ≠ "metadata") h = none :=
      pyDictGet_filter_none c _ h hnone
    simp only [ne_eq, decide_not] at hfil
    rcases k with _ | _ | _ | _ | _ | _ | k
    · simp only [insightsCsvHeaders, List.getElem?_cons_zero, Option.some.injEq] at hk
      subst hk
      simp [insightsCsvRow, insightsCsvHeaders, hfil, csvCell]
    · simp only [insightsCsvHeaders, List.getElem?_cons_succ, List.getElem?_cons_zero,
        Option.some.injEq] at hk
      subst hk
      simp [insightsCsvRow, insightsCsvHeaders, hfil, csvCell]
    · simp only [insightsCsvHeaders, List.getElem?_cons_succ, List.getElem?_cons_zero,
        Option.some.injEq] at hk
      subst hk
      simp [insightsCsvRow, insightsCsvHeaders, hfil, csvCell]
    · simp only [insightsCsvHeaders, List.getElem?_cons_succ, List.getElem?_cons_zero,
        Option.some.injEq] at hk
      subst hk
      simp [insightsCsvRow, insightsCsvHeaders, hfil, csvCell]
    · simp only [insightsCsvHeaders, List.getElem?_cons_succ, List.getElem?_cons_zero,
        Option.some.injEq] at hk
      subst hk
      simp [insightsCsvRow, insightsCsvHeaders, hfil, csvCell]
    · simp only [insightsCsvHeaders, List.getElem?_cons_succ, List.getElem?_cons_zero,
        Option.some.injEq] at hk
      subst hk
      simp [insightsCsvRow, insightsCsvHeaders, hfil, csvCell]
    · simp [insightsCsvHeaders] at hk
  · intro ev k v hk
    simp only [eventsCsvHeaders, List.mem_cons, List.not_mem_nil, or_false, not_or] at hk
    obtain ⟨h1, h2, h3, h4, h5⟩ := hk
    unfold eventsCsvRow
    rw [pyDictGet_cons_of_ne ev k v _ h1, pyDictGet_cons_of_ne ev k v _ h2,
      pyDictGet_cons_of_ne ev k v _ h3, pyDictGet_cons_of_ne ev k v _ h4,
      pyDictGet_cons_of_ne ev k v _ h5]
  · intro c k v hk
    simp only [insightsCsvHeaders, List.mem_cons, List.not_mem_nil, or_false, not_or] at hk
    obtain ⟨h1, h2, h3, h4, h5, h6⟩ := hk
    by_cases hm : k = "metadata"
    · unfold insightsCsvRow
      simp [List.filter_cons, hm]
    · unfold insightsCsvRow
      have hfil : ((k, v) :: c).filter (fun p => p.1 ≠ "metadata") =
          (k, v) :: c.filter (fun p => p.1 ≠ "metadata") := by
        simp [List.filter_cons, hm]
      rw [hfil]
      simp only [insightsCsvHeaders, List.map_cons, List.map_nil]
      rw [pyDictGet_cons_of_ne _ k v _ h1, pyDictGet_cons_of_ne _ k v _ h2,
        pyDictGet_cons_of_ne _ k v _ h3, pyDictGet_cons_of_ne _ k v _ h4,
        pyDictGet_cons_of_ne _ k v _ h5, pyDictGet_cons_of_ne _ k v _ h6]

/-- C8 witness: a record missing its `end` field still yields a row whose end
cell is empty; the per-column legs report an empty cell for a missing
`sdnaEventType` (events) and a missing `source` (insights); and an unknown
extra field leaves the row unchanged. -/
theorem csv_fixed_columns_missing_and_extra_fields_witness :
    (∃ c1 c2 c3 c4, eventsCsvRow [("id", "e1"), ("start", "0")] = [c1, c2, c3, c4, ""]) ∧
    (eventsCsvRow [("id", "e1"), ("start", "0")])[1]? = some "" ∧
    (insightsCsvRow [("id", "i1")])[5]? = some "" ∧
    eventsCsvRow [("confidence", "0.9"), ("id", "e1"), ("start", "0")] =
      eventsCsvRow [("id", "e1"), ("start", "0")] :=
  ⟨csv_fixed_columns_missing_and_extra_fields.2.2.2.1 [("id", "e1"), ("start", "0")] rfl,
   csv_fixed_columns_missing_and_extra_fields.2.2.2.2.1 [("id", "e1"), ("start", "0")]
     1 "sdnaEventType" rfl rfl,
   csv_fixed_columns_missing_and_extra_fields.2.2.2.2.2.1 [("id", "i1")] 5 "source" rfl rfl,
   csv_fixed_columns_missing_and_extra_fields.2.2.2.2.2.2.1 [("id", "e1"), ("start", "0")]
     "confidence" "0.9" (by decide)⟩

/-- C10: a work order whose transcript format list contains "edl" is rejected
by `create_export_job` — no job is created and a null response is returned —
while "edl" appearing only in the events/comments/markers lists passes the
validation and a pending job is created. -/
theorem export_job_rejects_transcript_edl :
    (∀ (workOrder : ExportWorkOrder) (t : OutputFormats),
      workOrder.outputs.transcript = some t → "edl" ∈ t.formats →
      createExportJob workOrder = none) ∧
    (∀ workOrder : ExportWorkOrder,
      (∀ t, workOrder.outputs.transcript = some t → "edl" ∉ t.formats) →
      createExportJob workOrder =
        some { repoGuid := workOrder.repoGuid, status := "pending" }) := by
  constructor
  · intro workOrder t h hmem
    have hv : validateEdlUsage workOrder = false := by
      unfold validateEdlUsage
      rw [h]
      exact if_pos hmem
    simp [createExportJob, hv]
  · intro workOrder h
    have hv : validateEdlUsage workOrder = true := by
      unfold validateEdlUsage
      cases hcase : workOrder.outputs.transcript with
      | none => rfl
      | some t => exact if_neg (h t hcase)
    simp [createExportJob, hv]

/-- C10 witness: a transcript-edl work order yields no job, while an
events-edl work order passes validation and yields a pending job. -/
theorem export_job_rejects_transcript_edl_witness :
    createExportJob
        { repoGuid := "repo-1",
          outputs := { transcript := some { formats := ["edl"], isSingleSegment := false },
                       events := some { formats := ["json"], isSingleSegment := false },
                       comments := none, markers := none } } = none ∧
    createExportJob
        { repoGuid := "repo-1",
          outputs := { transcript := some { formats := ["srt"], isSingleSegment := false },
                       events := some { formats := ["edl"], isSingleSegment := false },
                       comments := none, markers := none } } =
      some { repoGuid := "repo-1", status := "pending" } :=
  ⟨export_job_rejects_transcript_edl.1 _ { formats := ["edl"], isSingleSegment := false } rfl
     (by decide),
   export_job_rejects_transcript_edl.2 _ (fun t ht => by cases ht; decide)⟩

end ImportExportSql
